import Mathlib

/-!
Verification of the scenario-simulation core of `reserve_drain_model.py`:
the state-transition recurrence (`run_scenario`), the periodic TGA driver
(`tga_path_bn`), the crossing analyzer (`months_until`) and the summary
aggregator (`summary_table`).  Machine reals (Python floats) are modelled
as real numbers; the generic list/recurrence layers are kept polymorphic
over a linear ordered field so that concrete tests can be evaluated at ℚ.
-/

namespace ReserveDrainModel

/-! ### Module constants (source lines 23-47) -/

/-- Source line 23: `CURRENCY_GROWTH_BN = 5.5`. -/
def CURRENCY_GROWTH_BN : ℝ := 5.5

/-- Source line 24: `OTHER_DRAINS_BN = 2.0`. -/
def OTHER_DRAINS_BN : ℝ := 2.0

/-- Source line 27: `QT_HAWK_BN = 95.0`. -/
def QT_HAWK_BN : ℝ := 95.0

/-- Source line 28: `QT_MODERATE_BN = 40.0`. -/
def QT_MODERATE_BN : ℝ := 40.0

/-- Source line 29: `QT_DURATION_BN = 0.0`. -/
def QT_DURATION_BN : ℝ := 0.0

/-- Source line 30: `QE_CRISIS_BN = -75.0`. -/
def QE_CRISIS_BN : ℝ := -75.0

/-- Source line 33: `TGA_MEAN_BN = 650.0`. -/
def TGA_MEAN_BN : ℝ := 650.0

/-- Source line 34: `TGA_AMPLITUDE_BN = 100.0`. -/
def TGA_AMPLITUDE_BN : ℝ := 100.0

/-- Source line 35: `TGA_PERIOD_MONTHS = 6.0`. -/
def TGA_PERIOD_MONTHS : ℝ := 6.0

/-- Source line 44: `CRISIS_TRIGGER_MONTH = 6`. -/
def CRISIS_TRIGGER_MONTH : ℕ := 6

/-- Source line 46: `PROJECTION_MONTHS = 24`. -/
def PROJECTION_MONTHS : ℕ := 24

/-! ### Data model -/

/-- The starting-conditions dict returned by `load_starting_conditions`
(source lines 77-81): keys `reserves_bn`, `rrp_bn`, `tga_bn`. -/
structure StartState where
  reserves_bn : ℝ
  rrp_bn : ℝ
  tga_bn : ℝ

/-- The dict returned by `run_scenario` (source lines 162-168): five parallel
lists, each of length `PROJECTION_MONTHS + 1 = 25`. -/
structure Trajectory where
  reserves_bn : List ℝ
  rrp_bn : List ℝ
  tga_bn : List ℝ
  currency_cum_bn : List ℝ
  other_cum_bn : List ℝ

/-! ### Periodic driver (source lines 84-90) -/

/-- `tga_path_bn(month_index, tga_start_bn)`, source lines 84-90:
`TGA_MEAN_BN + TGA_AMPLITUDE_BN * np.sin(2 * np.pi * t / TGA_PERIOD_MONTHS)`.
The `tga_start_bn` argument appears in the Python signature but is never
read in the body; it is kept here, unused, exactly as in the source. -/
noncomputable def tga_path_bn (month_index : ℕ) (tga_start_bn : ℝ) : ℝ :=
  TGA_MEAN_BN + TGA_AMPLITUDE_BN * Real.sin (2 * Real.pi * month_index / TGA_PERIOD_MONTHS)

/-- The prebuilt TGA list of `run_scenario` (source lines 125-128):
`tga_series = [start["tga_bn"]]` followed by `tga_path_bn(m, start["tga_bn"])`
for `m = 1..24`.  Modelled as the function sending index `m` to the list
element `tga_series[m]`. -/
noncomputable def tga_series (tga0 : ℝ) : ℕ → ℝ
  | 0 => tga0
  | m + 1 => tga_path_bn (m + 1) tga0

/-! ### Scenario engine: the loop body of `run_scenario` (source lines 130-156).
The loop reads only the prebuilt `tga_series` list, so each per-step quantity
is embedded as a function of an arbitrary path `tga : ℕ → α`; `run_scenario`
below instantiates `tga` with `tga_series`. -/

/-- The effective QT rate for step `m` (source lines 131-135):
`qe` when `crisis_reversal_after_month is not None and m >= crisis_reversal_after_month
and qe_bn_per_month is not None`, else the base rate `qt`. -/
def effective_qt {α : Type} [LinearOrderedField α] (qt : α) (crisis : Option ℕ)
    (qe : Option α) (m : ℕ) : α :=
  match crisis, qe with
  | some trigger, some q => if trigger ≤ m then q else qt
  | _, _ => qt

/-- The ON RRP list (source lines 124, 146-147): `rrp = [start["rrp_bn"]]`, then
each iteration appends `0.0 if rrp_near_zero else rrp[-1]`.  Element `m` of
that list as a function of `m`. -/
def rrp_seq {α : Type} [LinearOrderedField α] (rrp_near_zero : Bool) (rrp0 : α) : ℕ → α
  | 0 => rrp0
  | _ + 1 => if rrp_near_zero then 0 else rrp0

/-- `delta_rrp` at loop iteration `m` (source lines 138-144): when
`rrp_near_zero`, the first month drains any remaining positive RRP
(`-rrp[-1]`, where `rrp[-1]` at iteration `m` is element `m - 1` of the RRP
list), otherwise zero. -/
def delta_rrp {α : Type} [LinearOrderedField α] (rrp_near_zero : Bool) (rrp0 : α)
    (m : ℕ) : α :=
  if rrp_near_zero then
    (if m = 1 ∧ 0 < rrp_seq rrp_near_zero rrp0 (m - 1) then
      -(rrp_seq rrp_near_zero rrp0 (m - 1))
    else 0)
  else 0

/-- The reserves list of `run_scenario` (source lines 123, 130-156) as a
function of the step index: `reserves[0] = start["reserves_bn"]` and
`reserves[m] = max(0.0, reserves[m-1] - effective_qt + delta_rrp
- (tga_series[m] - tga_series[m-1]) - currency_bn - other_bn)`. -/
def reserves_seq {α : Type} [LinearOrderedField α] (qt : α) (crisis : Option ℕ)
    (qe : Option α) (tga : ℕ → α) (rrp_near_zero : Bool)
    (rrp0 currency_bn other_bn r0 : α) : ℕ → α
  | 0 => r0
  | m + 1 =>
      max 0 (reserves_seq qt crisis qe tga rrp_near_zero rrp0 currency_bn other_bn r0 m
        - effective_qt qt crisis qe (m + 1)
        + delta_rrp rrp_near_zero rrp0 (m + 1)
        - (tga (m + 1) - tga m)
        - currency_bn - other_bn)

/-- `run_scenario` (source lines 93-168): runs the drain equation forward for
`PROJECTION_MONTHS = 24` steps and returns the five lists of length 25.  The
cumulative-drain lists are, verbatim from source lines 159-160,
`[currency_bn * (m + 1) for m in range(PROJECTION_MONTHS + 1)]` and likewise
for `other_bn`. -/
noncomputable def run_scenario (qt_bn_per_month : ℝ) (start : StartState)
    (currency_bn other_bn : ℝ) (rrp_near_zero : Bool)
    (crisis_reversal_after_month : Option ℕ) (qe_bn_per_month : Option ℝ) : Trajectory where
  reserves_bn := (List.range (PROJECTION_MONTHS + 1)).map
    (reserves_seq qt_bn_per_month crisis_reversal_after_month qe_bn_per_month
      (tga_series start.tga_bn) rrp_near_zero start.rrp_bn currency_bn other_bn
      start.reserves_bn)
  rrp_bn := (List.range (PROJECTION_MONTHS + 1)).map (rrp_seq rrp_near_zero start.rrp_bn)
  tga_bn := (List.range (PROJECTION_MONTHS + 1)).map (tga_series start.tga_bn)
  currency_cum_bn := (List.range (PROJECTION_MONTHS + 1)).map
    (fun (m : ℕ) => currency_bn * ((m : ℝ) + 1))
  other_cum_bn := (List.range (PROJECTION_MONTHS + 1)).map
    (fun (m : ℕ) => other_bn * ((m : ℝ) + 1))

/-! ### Threshold/crossing analyzer (source lines 196-201) -/

/-- `months_until(reserves_bn_list, threshold_bn)` (source lines 196-201):
scan the list in order, return the first 0-based index whose element is
`<= threshold_bn`, else `None`. -/
def months_until {α : Type} [LinearOrder α] : List α → α → Option ℕ
  | [], _ => none
  | r :: rest, threshold_bn =>
      if r ≤ threshold_bn then some 0
      else (months_until rest threshold_bn).map (· + 1)

/-! ### Summary aggregator (source lines 204-223) -/

/-- `round(x, 1)`: round to one decimal place (source lines 219-221).  Python
rounds half-to-even on floats; ties are immaterial to the properties proved
here, so Mathlib's `round` is used. -/
def round1 {α : Type} [LinearOrderedField α] [FloorRing α] (x : α) : α :=
  (round (10 * x) : ℤ) / 10

/-- One row of the summary table (source lines 208-222).  A field holds `none`
exactly where the source stores the em-dash sentinel `"—"`, and `some v`
where it stores the numeric value `v`.  Thresholds 2500 and 2000 are
`THRESH_AMPLE_BN` and `THRESH_CAUTION_BN` (source lines 39-40). -/
structure SummaryRow (α : Type) where
  scenario_label : String
  months_to_ample : Option ℕ
  months_to_caution : Option ℕ
  reserves_at_12 : Option α
  reserves_at_24 : Option α
  total_bs_reduction : Option α

/-- Build one summary row for reserves list `r` (source lines 208-222):
`m_25 = months_until(r, 2500)`, `m_20 = months_until(r, 2000)`,
`r_12 = r[12] if len(r) > 12 else None` (then rounded),
`r_24 = r[24] if len(r) > 24 else None` (then rounded),
`total = start_bn - r[24] if len(r) > 24 else None` (then rounded). -/
def summary_row {α : Type} [LinearOrderedField α] [FloorRing α] (label : String)
    (r : List α) (start_bn : α) : SummaryRow α where
  scenario_label := label
  months_to_ample := months_until r 2500
  months_to_caution := months_until r 2000
  reserves_at_12 := if h : 12 < r.length then some (round1 (r.get ⟨12, h⟩)) else none
  reserves_at_24 := if h : 24 < r.length then some (round1 (r.get ⟨24, h⟩)) else none
  total_bs_reduction :=
    if h : 24 < r.length then some (round1 (start_bn - r.get ⟨24, h⟩)) else none

/-- The fixed scenario catalogue iterated by `summary_table` (source line 207):
`[("A", "Warsh Hawk"), ("B", "Moderate"), ("C", "Duration Shift"),
("D", "Crisis Reversal")]`. -/
def scenario_catalogue : List (String × String) :=
  [("A", "Warsh Hawk"), ("B", "Moderate"), ("C", "Duration Shift"), ("D", "Crisis Reversal")]

/-- `summary_table(scenarios, start_bn)` (source lines 204-223): one row per
catalogue entry, in catalogue order, reading `scenarios[name]["reserves_bn"]`
for each entry. -/
def summary_table {α : Type} [LinearOrderedField α] [FloorRing α]
    (scenarios : String → List α) (start_bn : α) : List (SummaryRow α) :=
  scenario_catalogue.map (fun entry => summary_row entry.2 (scenarios entry.1) start_bn)

/-! ### Spec-side definitions used to state claims -/

/-- Modelled from the spec's regime-switch property: re-running the engine
recurrence with a constant rate, seeded with value `seed_reserves` at absolute
step `seed_step`, keeping absolute step indices for the path deltas and the
first-month RRP drawdown.  Indices `≤ seed_step` hold the seed value. -/
def reseeded_run {α : Type} [LinearOrderedField α] (rate : α) (tga : ℕ → α)
    (rrp_near_zero : Bool) (rrp0 currency_bn other_bn : α) (seed_step : ℕ)
    (seed_reserves : α) : ℕ → α
  | 0 => seed_reserves
  | m + 1 =>
      if m + 1 ≤ seed_step then seed_reserves
      else
        max 0 (reseeded_run rate tga rrp_near_zero rrp0 currency_bn other_bn
            seed_step seed_reserves m
          - rate + delta_rrp rrp_near_zero rrp0 (m + 1)
          - (tga (m + 1) - tga m)
          - currency_bn - other_bn)

/-- The claimed contract of `months_until`: index `i` is in range, its element
is at or below the threshold, and no earlier index is. -/
def is_first_crossing {α : Type} [LinearOrder α] (l : List α) (t : α) (i : ℕ) : Prop :=
  i < l.length ∧ l.getD i t ≤ t ∧ ∀ j < i, ¬ l.getD j t ≤ t

instance {α : Type} [LinearOrder α] (l : List α) (t : α) (i : ℕ) :
    Decidable (is_first_crossing l t i) :=
  decidable_of_iff (i < l.length ∧ l.getD i t ≤ t ∧ ∀ j < i, ¬ l.getD j t ≤ t) Iff.rfl

/-- The claimed contract of a `none` result from `months_until`: no element of
the list is at or below the threshold. -/
def no_crossing {α : Type} [LinearOrder α] (l : List α) (t : α) : Prop :=
  ∀ j < l.length, ¬ l.getD j t ≤ t

instance {α : Type} [LinearOrder α] (l : List α) (t : α) :
    Decidable (no_crossing l t) :=
  decidable_of_iff (∀ j < l.length, ¬ l.getD j t ≤ t) Iff.rfl

/-- The synthetic strictly-decreasing trajectory `[100, 90, 80, ..., 0]` from
the spec's crossing-correctness test, at ℚ so it can be evaluated. -/
def decreasing_trajectory : List ℚ :=
  [100, 90, 80, 70, 60, 50, 40, 30, 20, 10, 0]

/-! ### Helper lemmas -/

theorem getD_map_range {α : Type} (f : ℕ → α) (n i : ℕ) (d : α) :
    ((List.range n).map f).getD i d = if i < n then f i else d := by
  rcases lt_or_ge i n with h | h
  · simp [List.getD_eq_getElem?_getD, List.getElem?_map, List.getElem?_range, h]
  · simp [List.getD_eq_getElem?_getD, List.getElem?_map, List.getElem?_range,
      Nat.not_lt.mpr h, List.getElem?_eq_none, h]

theorem reserves_seq_nonneg {α : Type} [LinearOrderedField α] (qt : α)
    (crisis : Option ℕ) (qe : Option α) (tga : ℕ → α) (rnz : Bool)
    (rrp0 c_bn o_bn r0 : α) (h0 : 0 ≤ r0) :
    ∀ m, 0 ≤ reserves_seq qt crisis qe tga rnz rrp0 c_bn o_bn r0 m
  | 0 => h0
  | m + 1 => le_max_left 0 _

theorem delta_rrp_nonpos {α : Type} [LinearOrderedField α] (rnz : Bool) (rrp0 : α)
    (m : ℕ) : delta_rrp rnz rrp0 m ≤ 0 := by
  unfold delta_rrp
  split
  · split
    · rename_i h
      linarith [h.2]
    · exact le_refl 0
  · exact le_refl 0

theorem reseeded_run_of_le {α : Type} [LinearOrderedField α] (rate : α) (tga : ℕ → α)
    (rnz : Bool) (rrp0 c_bn o_bn : α) (s : ℕ) (seed : α) (n : ℕ) (h : n ≤ s) :
    reseeded_run rate tga rnz rrp0 c_bn o_bn s seed n = seed := by
  cases n with
  | zero => rfl
  | succ _ => simp [reseeded_run, h]

/-! ### C7: the crossing analyzer -/

/-- C7: `months_until` is a total function; a `some i` result is the least
index whose element is `≤ threshold`, and a `none` result means no element of
the sequence is `≤ threshold`.  The concrete tests of the claim are settled in
the witness below at the synthetic trajectory `[100, 90, ..., 0]`. -/
theorem months_until_first_crossing {α : Type} [LinearOrder α] (l : List α) (t : α) :
    (∀ i, months_until l t = some i → is_first_crossing l t i)
    ∧ (months_until l t = none → no_crossing l t) := by
  induction l with
  | nil =>
      refine ⟨fun i hi => by simp [months_until] at hi, fun _ => ?_⟩
      intro j hj
      simp at hj
  | cons r rest ih =>
      constructor
      · intro i hi
        by_cases hr : r ≤ t
        · simp [months_until, hr] at hi
          subst hi
          exact ⟨by simp, by simpa using hr, by omega⟩
        · simp [months_until, hr] at hi
          obtain ⟨k, hk, rfl⟩ := hi
          obtain ⟨hlen, hval, hmin⟩ := ih.1 k hk
          refine ⟨by simpa using hlen, by simpa using hval, ?_⟩
          intro j hj
          cases j with
          | zero => simpa using hr
          | succ j2 =>
              have := hmin j2 (by omega)
              simpa using this
      · intro hi
        by_cases hr : r ≤ t
        · simp [months_until, hr] at hi
        · simp [months_until, hr] at hi
          have hrest := ih.2 hi
          intro j hj
          cases j with
          | zero => simpa using hr
          | succ j2 =>
              have := hrest j2 (by simpa using hj)
              simpa using this

/-- C7 witness: at the synthetic trajectory with threshold 55 the analyzer
returns index 5 and that index satisfies the least-crossing contract; with
threshold -1 it returns the none sentinel and no element is `≤ -1`. -/
theorem months_until_first_crossing_witness :
    months_until decreasing_trajectory (55 : ℚ) = some 5
    ∧ is_first_crossing decreasing_trajectory (55 : ℚ) 5
    ∧ months_until decreasing_trajectory (-1 : ℚ) = none
    ∧ no_crossing decreasing_trajectory (-1 : ℚ) :=
  ⟨by decide,
   (months_until_first_crossing decreasing_trajectory (55 : ℚ)).1 5 (by decide),
   by decide,
   (months_until_first_crossing decreasing_trajectory (-1 : ℚ)).2 (by decide)⟩

/-! ### C4: the clamp invariant -/

/-- C4: for every scenario run whose starting reserves are `≥ 0`, every element
of the returned reserves list is `≥ 0` (stated via `getD` with default 0: for
`i < 25` this is element `i`, and the list has length 25).  Index 0 is the
starting value, indices `≥ 1` are produced by the `max(0, ·)` clamp. -/
theorem run_scenario_reserves_nonneg (qt : ℝ) (st : StartState) (c_bn o_bn : ℝ)
    (rnz : Bool) (crisis : Option ℕ) (qe : Option ℝ) (h0 : 0 ≤ st.reserves_bn) (i : ℕ) :
    0 ≤ (run_scenario qt st c_bn o_bn rnz crisis qe).reserves_bn.getD i 0 := by
  show 0 ≤ ((List.range (PROJECTION_MONTHS + 1)).map _).getD i 0
  rw [getD_map_range]
  split
  · exact reserves_seq_nonneg qt crisis qe (tga_series st.tga_bn) rnz st.rrp_bn
      c_bn o_bn st.reserves_bn h0 i
  · exact le_refl 0

/-- C4 witness: the Warsh Hawk scenario from a 3000/150/650 start has
nonnegative reserves at step 1. -/
theorem run_scenario_reserves_nonneg_witness :
    (0 : ℝ) ≤ (StartState.mk 3000 150 650).reserves_bn
    ∧ 0 ≤ (run_scenario QT_HAWK_BN (StartState.mk 3000 150 650) CURRENCY_GROWTH_BN
        OTHER_DRAINS_BN true none none).reserves_bn.getD 1 0 :=
  ⟨by norm_num,
   run_scenario_reserves_nonneg QT_HAWK_BN (StartState.mk 3000 150 650)
     CURRENCY_GROWTH_BN OTHER_DRAINS_BN true none none (by norm_num) 1⟩

/-! ### C6: monotonicity with the driver and drains held at zero -/

/-- C6: with a positive runoff rate, no regime switch, the periodic-driver
contribution held at zero (a constant TGA path, so every step's
`delta_tga = 0`) and both monthly drains zero, the reserves sequence produced
by the engine loop is non-increasing, for any starting state with
`reserves ≥ 0`.  The first-month RRP drawdown only subtracts (`delta_rrp ≤ 0`),
so no hypothesis on the buffer is needed. -/
theorem reserves_seq_monotone_no_driver {α : Type} [LinearOrderedField α] (qt : α)
    (hqt : 0 < qt) (tconst rrp0 r0 : α) (h0 : 0 ≤ r0) (rnz : Bool) (i : ℕ) :
    reserves_seq qt none none (fun _ => tconst) rnz rrp0 0 0 r0 (i + 1)
      ≤ reserves_seq qt none none (fun _ => tconst) rnz rrp0 0 0 r0 i := by
  have hprev : 0 ≤ reserves_seq qt none none (fun _ => tconst) rnz rrp0 0 0 r0 i :=
    reserves_seq_nonneg qt none none (fun _ => tconst) rnz rrp0 0 0 r0 h0 i
  have hdr : delta_rrp rnz rrp0 (i + 1) ≤ 0 := delta_rrp_nonpos rnz rrp0 (i + 1)
  show max 0 (reserves_seq qt none none (fun _ => tconst) rnz rrp0 0 0 r0 i
      - effective_qt qt none none (i + 1) + delta_rrp rnz rrp0 (i + 1)
      - (tconst - tconst) - 0 - 0) ≤ _
  have heq : effective_qt qt none none (i + 1) = qt := rfl
  rw [heq]
  exact max_le hprev (by linarith)

/-- C6 witness: at ℚ with `qt = 95`, a 3000 start, buffer 150 and a constant
driver path, the first step does not increase reserves. -/
theorem reserves_seq_monotone_no_driver_witness :
    (0 : ℚ) < 95 ∧ (0 : ℚ) ≤ 3000
    ∧ reserves_seq (95 : ℚ) none none (fun _ => 0) true 150 0 0 3000 1
      ≤ reserves_seq (95 : ℚ) none none (fun _ => 0) true 150 0 0 3000 0 :=
  ⟨by norm_num, by norm_num,
   reserves_seq_monotone_no_driver (95 : ℚ) (by norm_num) 0 150 3000 (by norm_num) true 0⟩

/-! ### C2: the end-to-end step-1 value and the general recurrence -/

/-- C2: for the start `(reserves=3000, auxiliaryBuffer=150, cashBalance=650)`
and scenario `runoffRate=95, currencyDrain=5.5, otherDrain=2.0`, no regime
switch, the engine's step-1 reserves equal
`max(0, 3000 - 95 + (-150) - (cashPath(1) - 650) - 5.5 - 2.0)` with
`cashPath(t) = 650 + 100 * sin(2π t / 6)`; and in general every step applies
`reserves[m] = max(0, reserves[m-1] - effectiveRunoffRate + deltaAuxiliaryBuffer
- deltaCashBalance - currencyDrain - otherDrain)`. -/
theorem run_scenario_step1_and_recurrence :
    (run_scenario QT_HAWK_BN (StartState.mk 3000 150 650) CURRENCY_GROWTH_BN
        OTHER_DRAINS_BN true none none).reserves_bn.getD 1 0
      = max 0 (3000 - 95 + (-150)
          - ((650 + 100 * Real.sin (2 * Real.pi * 1 / 6)) - 650) - 5.5 - 2)
    ∧ ∀ {α : Type} [LinearOrderedField α] (qt : α) (crisis : Option ℕ)
        (qe : Option α) (tga : ℕ → α) (rnz : Bool) (rrp0 c_bn o_bn r0 : α) (m : ℕ),
        reserves_seq qt crisis qe tga rnz rrp0 c_bn o_bn r0 (m + 1)
          = max 0 (reserves_seq qt crisis qe tga rnz rrp0 c_bn o_bn r0 m
              - effective_qt qt crisis qe (m + 1)
              + delta_rrp rnz rrp0 (m + 1)
              - (tga (m + 1) - tga m)
              - c_bn - o_bn) := by
  constructor
  · show ((List.range (PROJECTION_MONTHS + 1)).map _).getD 1 0 = _
    rw [getD_map_range]
    have h1 : (1 : ℕ) < PROJECTION_MONTHS + 1 := by norm_num [PROJECTION_MONTHS]
    rw [if_pos h1]
    show max 0 (reserves_seq _ _ _ _ _ _ _ _ _ 0 - effective_qt _ _ _ 1
        + delta_rrp true _ 1 - (tga_series 650 1 - tga_series 650 0)
        - CURRENCY_GROWTH_BN - OTHER_DRAINS_BN) = _
    have hqt : effective_qt QT_HAWK_BN none (none : Option ℝ) 1 = QT_HAWK_BN := rfl
    have hdr : delta_rrp true ((StartState.mk 3000 150 650).rrp_bn : ℝ) 1 = -150 := by
      show delta_rrp true (150 : ℝ) 1 = -150
      unfold delta_rrp rrp_seq
      norm_num
    rw [hqt, hdr]
    show max 0 ((3000 : ℝ) - QT_HAWK_BN + (-150)
        - (tga_path_bn 1 650 - 650) - CURRENCY_GROWTH_BN - OTHER_DRAINS_BN) = _
    unfold tga_path_bn TGA_MEAN_BN TGA_AMPLITUDE_BN TGA_PERIOD_MONTHS QT_HAWK_BN
      CURRENCY_GROWTH_BN OTHER_DRAINS_BN
    norm_num
  · intro α _ qt crisis qe tga rnz rrp0 c_bn o_bn r0 m
    rfl

/-! ### C3: the regime switch is a pure parameter substitution -/

/-- C3: for a scenario with `regimeSwitch = (T, qe)`, the reserves sequence is
identical at every step `i < T` to the constant-rate-`qt` sequence, and at
every step `i ≥ T` to re-running the recurrence with constant rate `qe` seeded
at the switch-time state (the step `T - 1` value of the pre-switch
trajectory), keeping absolute step indices for the cash-path deltas and the
first-month buffer drawdown. -/
theorem regime_switch_pure_substitution {α : Type} [LinearOrderedField α]
    (qt qe c o rrp0 r0 : α) (rnz : Bool) (tga : ℕ → α) (T : ℕ) :
    (∀ i, i < T →
        reserves_seq qt (some T) (some qe) tga rnz rrp0 c o r0 i
          = reserves_seq qt none none tga rnz rrp0 c o r0 i)
    ∧ (∀ i, T ≤ i →
        reserves_seq qt (some T) (some qe) tga rnz rrp0 c o r0 i
          = reseeded_run qe tga rnz rrp0 c o (T - 1)
              (reserves_seq qt none none tga rnz rrp0 c o r0 (T - 1)) i) := by
  have h1 : ∀ i, i < T →
      reserves_seq qt (some T) (some qe) tga rnz rrp0 c o r0 i
        = reserves_seq qt none none tga rnz rrp0 c o r0 i := by
    intro i
    induction i with
    | zero => intro _; rfl
    | succ n ih =>
        intro hi
        have hn : n < T := Nat.lt_of_succ_lt hi
        show max 0 (_ - effective_qt qt (some T) (some qe) (n + 1) + _ - _ - _ - _) = _
        have he : effective_qt qt (some T) (some qe) (n + 1) = qt := by
          unfold effective_qt
          simp [Nat.not_le.mpr hi]
        rw [he, ih hn]
        rfl
  refine ⟨h1, ?_⟩
  intro i
  induction i with
  | zero =>
      intro hT
      have hT0 : T = 0 := Nat.le_zero.mp hT
      subst hT0
      rfl
  | succ n ih =>
      intro hT
      by_cases hn : T ≤ n
      · have he : effective_qt qt (some T) (some qe) (n + 1) = qe := by
          unfold effective_qt
          simp [Nat.le_succ_of_le hn]
        have hsk : ¬ (n + 1 ≤ T - 1) := by omega
        show max 0 (_ - effective_qt qt (some T) (some qe) (n + 1) + _ - _ - _ - _) = _
        rw [he, ih hn]
        simp [reseeded_run, hsk]
      · have he : effective_qt qt (some T) (some qe) (n + 1) = qe := by
          unfold effective_qt
          simp [hT]
        have hseed : reseeded_run qe tga rnz rrp0 c o (T - 1)
            (reserves_seq qt none none tga rnz rrp0 c o r0 (T - 1)) n
            = reserves_seq qt none none tga rnz rrp0 c o r0 (T - 1) :=
          reseeded_run_of_le _ _ _ _ _ _ _ _ n (by omega)
        have hsk : ¬ (n + 1 ≤ T - 1) := by omega
        have hsw : reserves_seq qt (some T) (some qe) tga rnz rrp0 c o r0 n
            = reserves_seq qt none none tga rnz rrp0 c o r0 (T - 1) := by
          rw [show T - 1 = n by omega]
          rcases Nat.eq_zero_or_pos T with h0 | hpos
          · omega
          · exact h1 n (by omega)
        show max 0 (_ - effective_qt qt (some T) (some qe) (n + 1) + _ - _ - _ - _) = _
        rw [he, hsw]
        simp [reseeded_run, hsk, hseed]

/-- C3 witness: at ℚ with the Crisis-Reversal parameters `(T=6, qt=95,
qe=-75)` and a constant driver path, step 3 of the switched run agrees with
the constant-rate run and step 10 agrees with the reseeded constant-`qe`
run. -/
theorem regime_switch_pure_substitution_witness :
    (reserves_seq (95 : ℚ) (some 6) (some (-75)) (fun _ => 0) true 150 5.5 2 3000 3
      = reserves_seq (95 : ℚ) none none (fun _ => 0) true 150 5.5 2 3000 3)
    ∧ (reserves_seq (95 : ℚ) (some 6) (some (-75)) (fun _ => 0) true 150 5.5 2 3000 10
      = reseeded_run (-75 : ℚ) (fun _ => 0) true 150 5.5 2 5
          (reserves_seq (95 : ℚ) none none (fun _ => 0) true 150 5.5 2 3000 5) 10) :=
  ⟨(regime_switch_pure_substitution (95 : ℚ) (-75) 5.5 2 150 3000 true (fun _ => 0) 6).1
      3 (by norm_num),
   (regime_switch_pure_substitution (95 : ℚ) (-75) 5.5 2 150 3000 true (fun _ => 0) 6).2
      10 (by norm_num)⟩

/-! ### C9: a half-specified regime switch is silently ignored -/

theorem reserves_seq_none_qe {α : Type} [LinearOrderedField α] (qt : α) (T : ℕ)
    (tga : ℕ → α) (rnz : Bool) (rrp0 c_bn o_bn r0 : α) :
    ∀ m, reserves_seq qt (some T) none tga rnz rrp0 c_bn o_bn r0 m
      = reserves_seq qt none none tga rnz rrp0 c_bn o_bn r0 m := by
  intro m
  induction m with
  | zero => rfl
  | succ n ih =>
      show max 0 (_ - effective_qt qt (some T) none (n + 1) + _ - _ - _ - _) = _
      have he : effective_qt qt (some T) (none : Option α) (n + 1) = qt := rfl
      rw [he, ih]
      rfl

/-- C9: when `crisis_reversal_after_month` is set but `qe_bn_per_month` is
`None`, the switch is silently ignored — the base rate is used at every step
and the returned trajectory is identical, in all five lists, to the run with
no regime switch at all. -/
theorem half_specified_switch_ignored (qt : ℝ) (st : StartState) (c_bn o_bn : ℝ)
    (rnz : Bool) (T : ℕ) :
    run_scenario qt st c_bn o_bn rnz (some T) none
      = run_scenario qt st c_bn o_bn rnz none none
    ∧ ∀ m, effective_qt qt (some T) (none : Option ℝ) m = qt := by
  constructor
  · unfold run_scenario
    have hfun : reserves_seq qt (some T) none (tga_series st.tga_bn) rnz st.rrp_bn
          c_bn o_bn st.reserves_bn
        = reserves_seq qt none none (tga_series st.tga_bn) rnz st.rrp_bn
          c_bn o_bn st.reserves_bn :=
      funext (reserves_seq_none_qe qt T (tga_series st.tga_bn) rnz st.rrp_bn
        c_bn o_bn st.reserves_bn)
    rw [hfun]
  · intro m
    rfl

/-! ### C10: the periodic driver ignores its seed argument -/

/-- C10: `tga_path_bn` returns the same value for any two seeds, so two runs
differing only in starting cash balance have TGA lists that agree at every
index `i ≥ 1`; index 0 holds each run's own starting cash balance. -/
theorem tga_seed_ignored (qt c_bn o_bn r0 rrp0 s1 s2 : ℝ) (rnz : Bool)
    (crisis : Option ℕ) (qe : Option ℝ) :
    (∀ (m : ℕ) (a b : ℝ), tga_path_bn m a = tga_path_bn m b)
    ∧ (∀ i, 1 ≤ i →
        (run_scenario qt (StartState.mk r0 rrp0 s1) c_bn o_bn rnz crisis qe).tga_bn.getD i 0
          = (run_scenario qt (StartState.mk r0 rrp0 s2) c_bn o_bn rnz crisis qe).tga_bn.getD i 0)
    ∧ (run_scenario qt (StartState.mk r0 rrp0 s1) c_bn o_bn rnz crisis qe).tga_bn.getD 0 0
        = s1 := by
  refine ⟨fun m a b => rfl, ?_, ?_⟩
  · intro i hi
    show ((List.range (PROJECTION_MONTHS + 1)).map _).getD i 0
      = ((List.range (PROJECTION_MONTHS + 1)).map _).getD i 0
    rw [getD_map_range, getD_map_range]
    split
    · cases i with
      | zero => omega
      | succ m => rfl
    · rfl
  · show ((List.range (PROJECTION_MONTHS + 1)).map _).getD 0 0 = s1
    rw [getD_map_range]
    norm_num [PROJECTION_MONTHS]
    rfl

/-- C10 witness: two Warsh Hawk runs seeded with cash balances 650 and 700
agree on the TGA list at index 1. -/
theorem tga_seed_ignored_witness :
    (1 : ℕ) ≤ 1
    ∧ (run_scenario 95 (StartState.mk 3000 150 650) 5.5 2 true none none).tga_bn.getD 1 0
      = (run_scenario 95 (StartState.mk 3000 150 700) 5.5 2 true none none).tga_bn.getD 1 0 :=
  ⟨le_refl 1,
   (tga_seed_ignored 95 5.5 2 3000 150 650 700 true none none).2.1 1 (le_refl 1)⟩

/-! ### C5: the engine performs no configuration validation -/

/-- C5 counterexample: with a regime switch whose trigger step 30 (and
likewise 0) lies outside `[1, 24]`, `run_scenario` does not fail: it returns
a complete trajectory of all `25 = horizon + 1` reserve values.  The source
contains no horizon parameter (the horizon is the constant 24) and no raise
statement, so no `InvalidHorizonError` or `InvalidParametersError` exists. -/
theorem run_scenario_no_validation_counterexample :
    (run_scenario 95 (StartState.mk 3000 150 650) 5.5 2 true (some 30)
        (some (-75))).reserves_bn.length = 25
    ∧ (run_scenario 95 (StartState.mk 3000 150 650) 5.5 2 true (some 0)
        (some (-75))).reserves_bn.length = 25 := by
  constructor
  · show ((List.range (PROJECTION_MONTHS + 1)).map _).length = 25
    rw [List.length_map, List.length_range]
    rfl
  · show ((List.range (PROJECTION_MONTHS + 1)).map _).length = 25
    rw [List.length_map, List.length_range]
    rfl

/-- C5 amended: the engine accepts every configuration silently.  For any
trigger step `T` — in range or not — a full `horizon + 1`-element trajectory
is produced, and the only effect of `T` is through the comparison `T ≤ m`:
a trigger `> 24` leaves the base rate in force at every simulated step, and a
trigger `≤ 0` applies the replacement rate from the first step on. -/
theorem run_scenario_no_validation (qt qe c_bn o_bn : ℝ) (st : StartState)
    (rnz : Bool) (T : ℕ) :
    (run_scenario qt st c_bn o_bn rnz (some T) (some qe)).reserves_bn.length
      = PROJECTION_MONTHS + 1
    ∧ (∀ m : ℕ, m < T → effective_qt qt (some T) (some qe) m = qt)
    ∧ (∀ m : ℕ, T ≤ m → effective_qt qt (some T) (some qe) m = qe) := by
  refine ⟨?_, ?_, ?_⟩
  · show ((List.range (PROJECTION_MONTHS + 1)).map _).length = _
    rw [List.length_map, List.length_range]
  · intro m hm
    unfold effective_qt
    simp [Nat.not_le.mpr hm]
  · intro m hm
    unfold effective_qt
    simp [hm]

/-- C5 amended witness: a trigger of 30 with the 24-step horizon yields the
full 25-element reserves list and the base rate 95 at step 5. -/
theorem run_scenario_no_validation_witness :
    (run_scenario 95 (StartState.mk 3000 150 650) 5.5 2 true (some 30)
        (some (-75))).reserves_bn.length = PROJECTION_MONTHS + 1
    ∧ effective_qt (95 : ℝ) (some 30) (some (-75)) 5 = 95 :=
  ⟨(run_scenario_no_validation 95 (-75) 5.5 2 (StartState.mk 3000 150 650) true 30).1,
   (run_scenario_no_validation 95 (-75) 5.5 2 (StartState.mk 3000 150 650) true 30).2.1
      5 (by norm_num)⟩

/-! ### C1: the cumulative-drain lists are off by one month -/

/-- C1 (code bug): the source computes
`currency_cum = [currency_bn * (m + 1) for m in range(25)]` (lines 159-160),
so index 0 of the cumulative-drain lists holds one month of drain
(`5.5` and `2.0` here), not `rate * 0 = 0` as the spec — and the source's own
comment in `chart2_decomposition` ("Currency cum = 5.5 * (0,1,...,24)",
"cumulative flows from 0 (so at month t: 5.5*t and 2*t)") — requires. -/
theorem currency_cum_off_by_one :
    (run_scenario QT_HAWK_BN (StartState.mk 3000 150 650) CURRENCY_GROWTH_BN
        OTHER_DRAINS_BN true none none).currency_cum_bn.getD 0 0 = 5.5
    ∧ (run_scenario QT_HAWK_BN (StartState.mk 3000 150 650) CURRENCY_GROWTH_BN
        OTHER_DRAINS_BN true none none).currency_cum_bn.getD 0 0 ≠ 5.5 * 0
    ∧ (run_scenario QT_HAWK_BN (StartState.mk 3000 150 650) CURRENCY_GROWTH_BN
        OTHER_DRAINS_BN true none none).other_cum_bn.getD 0 0 = 2
    ∧ (run_scenario QT_HAWK_BN (StartState.mk 3000 150 650) CURRENCY_GROWTH_BN
        OTHER_DRAINS_BN true none none).other_cum_bn.getD 0 0 ≠ 2 * 0 := by
  have hc : (run_scenario QT_HAWK_BN (StartState.mk 3000 150 650) CURRENCY_GROWTH_BN
      OTHER_DRAINS_BN true none none).currency_cum_bn.getD 0 0 = 5.5 := by
    show ((List.range (PROJECTION_MONTHS + 1)).map
      (fun (m : ℕ) => CURRENCY_GROWTH_BN * ((m : ℝ) + 1))).getD 0 0 = 5.5
    rw [getD_map_range]
    norm_num [PROJECTION_MONTHS, CURRENCY_GROWTH_BN]
  have ho : (run_scenario QT_HAWK_BN (StartState.mk 3000 150 650) CURRENCY_GROWTH_BN
      OTHER_DRAINS_BN true none none).other_cum_bn.getD 0 0 = 2 := by
    show ((List.range (PROJECTION_MONTHS + 1)).map
      (fun (m : ℕ) => OTHER_DRAINS_BN * ((m : ℝ) + 1))).getD 0 0 = 2
    rw [getD_map_range]
    norm_num [PROJECTION_MONTHS, OTHER_DRAINS_BN]
  refine ⟨hc, ?_, ho, ?_⟩
  · rw [hc]
    norm_num
  · rw [ho]
    norm_num

/-! ### C8: the summary aggregator and its unavailable sentinel -/

/-- C8: `summary_table` produces exactly one row per catalogue entry, in the
catalogue's declared order; for any reserves list of length `≤ 24` the
checkpoint-24 field and the total-reduction field are the `none` sentinel
(the function is total, so no out-of-range failure can occur); and the
sentinel is distinct from every numeric value, in particular from 0 and
-1. -/
theorem summary_table_rows_and_guards {α : Type} [LinearOrderedField α] [FloorRing α]
    (scenarios : String → List α) (start_bn : α) :
    summary_table scenarios start_bn
      = [summary_row "Warsh Hawk" (scenarios "A") start_bn,
         summary_row "Moderate" (scenarios "B") start_bn,
         summary_row "Duration Shift" (scenarios "C") start_bn,
         summary_row "Crisis Reversal" (scenarios "D") start_bn]
    ∧ (∀ (label : String) (r : List α), r.length ≤ 24 →
        (summary_row label r start_bn).reserves_at_24 = none
        ∧ (summary_row label r start_bn).total_bs_reduction = none)
    ∧ (∀ x : α, (none : Option α) ≠ some x) := by
  refine ⟨rfl, ?_, fun x => by simp⟩
  intro label r hr
  have h24 : ¬ (24 < r.length) := by omega
  constructor
  · show (if h : 24 < r.length then some (round1 (r.get ⟨24, h⟩)) else none) = none
    rw [dif_neg h24]
  · show (if h : 24 < r.length then some (round1 (start_bn - r.get ⟨24, h⟩)) else none)
      = none
    rw [dif_neg h24]

/-- C8 witness: a horizon-10 run produces a reserves list of length 11, and
its summary row reports the checkpoint-24 and total-reduction fields as the
`none` sentinel rather than failing or substituting a number. -/
theorem summary_table_rows_and_guards_witness :
    (List.replicate 11 (3000 : ℚ)).length ≤ 24
    ∧ (summary_row "Warsh Hawk" (List.replicate 11 (3000 : ℚ)) 3000).reserves_at_24 = none
    ∧ (summary_row "Warsh Hawk" (List.replicate 11 (3000 : ℚ)) 3000).total_bs_reduction
        = none :=
  ⟨by decide,
   ((summary_table_rows_and_guards (fun _ => List.replicate 11 (3000 : ℚ)) 3000).2.1
      "Warsh Hawk" (List.replicate 11 (3000 : ℚ)) (by decide)).1,
   ((summary_table_rows_and_guards (fun _ => List.replicate 11 (3000 : ℚ)) 3000).2.1
      "Warsh Hawk" (List.replicate 11 (3000 : ℚ)) (by decide)).2⟩

end ReserveDrainModel
